import Mathlib

/-!
Shallow embedding of `src/auction-scraper.js` (auction-scraper repository).

The program is a linear pipeline: startup credential check, a spreadsheet
read building the existing-key set, a per-site pagination loop feeding a
record extractor, a dedup fold over the extracted rows, and a final batch
append.  External collaborators (the HTTP client, the DOM/selector engine,
the spreadsheet API and URL resolution) are abstracted: a page fetch is a
function `String → Except String PageData` returning the selector-query
results for that page, and URL resolution is an abstract function
`resolve : String → String → String`.  Network calls and console output
are recorded as an event trace so that claims about "zero network calls"
or "logs a summary" are statable.  JavaScript truthiness of strings
(empty string falsy) and of optional values (undefined/null falsy) is
modelled explicitly.
-/

namespace AuctionScraper

/-- Selector configuration of a site (`SITES[i].selectors`).  Fields are
optional so that a descriptor missing a selector is representable, as in
JavaScript where a missing object field reads as `undefined`. -/
structure Selectors where
  item : Option String
  title : Option String
  date : Option String
  location : Option String
  category : Option String
  description : Option String
  link : Option String
  deriving Repr, DecidableEq

/-- Pagination configuration (`SITES[i].pagination`): optional `next`
selector and optional numeric `limit`. -/
structure Pagination where
  next : Option String
  limit : Option Nat
  deriving Repr, DecidableEq

/-- A site descriptor, as in the `SITES` constant.  `pagination` is
optional: a descriptor may lack the pagination object entirely. -/
structure Site where
  name : String
  url : String
  selectors : Selectors
  pagination : Option Pagination
  deriving Repr, DecidableEq

/-- The selector-query results for one matched item element: the five
trimmed text fields (`""` when the sub-selector matches nothing, as
`.text().trim()` of an empty selection) and the link sub-selector's
`href` attribute (`none` when absent, mirroring `attr("href")`
returning `undefined`). -/
structure ItemElem where
  title : String
  date : String
  location : String
  category : String
  description : String
  href : Option String
  deriving Repr, DecidableEq

/-- The selector-query results for one fetched page: the matched item
elements and the `href` of the pagination next-selector match
(`none` when absent). -/
structure PageData where
  elems : List ItemElem
  rawNext : Option String
  deriving Repr, DecidableEq

/-- An auction record, `[title, date, location, category, description, link]`
as pushed by `scrapePage`. -/
structure Row where
  title : String
  date : String
  location : String
  category : String
  description : String
  link : String
  deriving Repr, DecidableEq

/-- JavaScript truthiness of a possibly-absent string: `undefined`/`null`
and the empty string are falsy. -/
def jsTruthyOptStr : Option String → Bool
  | none => false
  | some s => s != ""

/-- JavaScript truthiness of the optional numeric `limit` field:
`undefined` and `0` are falsy (`!site.pagination.limit`). -/
def limitFalsy : Option Nat → Bool
  | none => true
  | some n => n == 0

/-- `isPrefixChars n h` decides whether `n` is a prefix of `h`. -/
def isPrefixChars : List Char → List Char → Bool
  | [], _ => true
  | _ :: _, [] => false
  | a :: as, b :: bs => a == b && isPrefixChars as bs

/-- `hasSubChars n h` decides whether `n` occurs as a contiguous
substring of `h` (the semantics of JavaScript `String.includes`). -/
def hasSubChars (needle : List Char) : List Char → Bool
  | [] => isPrefixChars needle []
  | b :: bs => isPrefixChars needle (b :: bs) || hasSubChars needle bs

/-- JavaScript `hay.includes(needle)` on strings. -/
def jsIncludes (hay needle : String) : Bool :=
  hasSubChars needle.data hay.data

/-- `text.toLowerCase()` (character-wise ASCII lowering, which agrees with
the JavaScript method on the ASCII keywords the program tests). -/
def jsToLower (s : String) : String :=
  ⟨s.data.map Char.toLower⟩

/-- `guessCategory(title, location, url)` from the source: lower-case the
space-joined concatenation and test fixed keyword groups in order. -/
def guessCategory (title location url : String) : String :=
  let text := jsToLower (title ++ " " ++ location ++ " " ++ url)
  if jsIncludes text "property" || jsIncludes text "estate" then "Property"
  else if jsIncludes text "antique" || jsIncludes text "collectible" then "Antiques"
  else if jsIncludes text "jewel" || jsIncludes text "watch" then "Jewellery"
  else if jsIncludes text "car" || jsIncludes text "vehicle" then "Motors"
  else if jsIncludes text "farm" || jsIncludes text "tractor" then "Agriculture"
  else if jsIncludes text "art" || jsIncludes text "painting" then "Art"
  else "General"

/-- Build one record from an item element, as the `$(site.selectors.item).each`
body does: category falls back to `guessCategory` when the selector text is
empty, and the link is `new URL(relativeLink, site.url).href` when the href
is truthy, else `site.url`. -/
def mkRow (site : Site) (resolve : String → String → String) (e : ItemElem) : Row :=
  { title := e.title
    date := e.date
    location := e.location
    category := if e.category == "" then guessCategory e.title e.location site.url
                else e.category
    description := e.description
    link := match e.href with
            | some s => if s != "" then resolve s site.url else site.url
            | none => site.url }

/-- Truthiness of `site.pagination?.next`. -/
def nextSelConfigured (site : Site) : Bool :=
  match site.pagination with
  | some p => jsTruthyOptStr p.next
  | none => false

/-- The `limit` field as read inside `scrapePage` (only reached when
`site.pagination?.next` is truthy, hence `pagination` present). -/
def limitOf (site : Site) : Option Nat :=
  match site.pagination with
  | some p => p.limit
  | none => none

/-- The `nextPage` computation of `scrapePage` (lines 91–97): when the
next-selector is configured and matched a truthy href, and the page
counter is below the limit (or the limit is falsy), resolve the href
against the site url; otherwise `null`. -/
def nextPageOf (site : Site) (resolve : String → String → String) (page : Nat)
    (rawNext : Option String) : Option String :=
  if nextSelConfigured site then
    match rawNext with
    | some n =>
        if n != "" && (limitFalsy (limitOf site) || decide (page < (limitOf site).getD 0))
        then some (resolve n site.url) else none
    | none => none
  else none

/-- Events of a run: network calls (spreadsheet read, page fetch,
spreadsheet append) and console lines. -/
inductive Ev where
  | sheetGet
  | pageFetch (url : String)
  | sheetAppend (rows : List Row)
  | log (msg : String)
  | logError (msg : String)
  deriving Repr, DecidableEq

/-- `scrapePage`: log the page line, fetch, then map the matched elements
to records and compute the next-page URL.  Returns the emitted events and
either the page result or the thrown error. -/
def scrapePage (site : Site) (fetch : String → Except String PageData)
    (resolve : String → String → String) (url : String) (page : Nat) :
    List Ev × Except String (List Row × Option String) :=
  let tr := [Ev.log ("📄 Scraping page " ++ toString page ++ ": " ++ url),
             Ev.pageFetch url]
  match fetch url with
  | .error e => (tr, .error e)
  | .ok pd =>
      (tr, .ok (pd.elems.map (mkRow site resolve), nextPageOf site resolve page pd.rawNext))

/-- The `while` guard of `scrapeSite` (line 107),
`pageUrl && (!site.pagination.limit || page <= site.pagination.limit)`:
`&&` short-circuits on a falsy `pageUrl`; otherwise reading
`site.pagination.limit` on an absent pagination object throws a
TypeError, modelled as `true` in the second component. -/
def limitOk (limit : Option Nat) (page : Nat) : Bool :=
  limitFalsy limit || decide (page ≤ limit.getD 0)

/-- Outcome of evaluating the `while` guard of `scrapeSite` (line 107):
leave the loop, throw the TypeError from reading `.limit` of an absent
pagination object, or enter the body at the given url. -/
inductive Guard where
  | exit
  | crash
  | go (url : String) (pag : Pagination)
  deriving Repr, DecidableEq

/-- Evaluate `pageUrl && (!site.pagination.limit || page <= site.pagination.limit)`
with JavaScript short-circuiting: a falsy `pageUrl` exits before the
pagination object is touched; otherwise reading `.limit` of an absent
pagination object throws. -/
def guardEval (pag : Option Pagination) (pu : Option String) (page : Nat) : Guard :=
  match pu, pag with
  | none, _ => .exit
  | some url, none => if url == "" then .exit else .crash
  | some url, some p =>
      if url == "" then .exit
      else if limitOk p.limit page then .go url p else .exit

/-- The pagination loop of `scrapeSite`, fuel-indexed.  `none` means the
fuel ran out with the loop still live; `some (tr, .error ())` means the
uncaught TypeError from reading `site.pagination.limit` escaped (no
pagination object); `some (tr, .ok rows)` is normal completion, by guard
failure or by the `catch` branch breaking out on a page error. -/
def siteLoop (site : Site) (fetch : String → Except String PageData)
    (resolve : String → String → String) :
    Nat → Option String → Nat → List Row → List Ev →
    Option (List Ev × Except Unit (List Row))
  | 0, pu, page, acc, tr =>
    match guardEval site.pagination pu page with
    | .exit => some (tr, .ok acc)
    | .crash => some (tr, .error ())
    | .go _ _ => none
  | fuel + 1, pu, page, acc, tr =>
    match guardEval site.pagination pu page with
    | .exit => some (tr, .ok acc)
    | .crash => some (tr, .error ())
    | .go url _ =>
      match scrapePage site fetch resolve url page with
      | (ptr, .error e) =>
          some (tr ++ ptr ++ [Ev.logError ("⚠️ Error on " ++ url ++ ": " ++ e)],
                .ok acc)
      | (ptr, .ok (rows, next)) =>
          siteLoop site fetch resolve fuel next (page + 1) (acc ++ rows) (tr ++ ptr)

/-- `scrapeSite`: the start log, the pagination loop from the site url at
page 1, and the found-count log on normal completion. -/
def scrapeSite (site : Site) (fetch : String → Except String PageData)
    (resolve : String → String → String) (fuel : Nat) :
    Option (List Ev × Except Unit (List Row)) :=
  match siteLoop site fetch resolve fuel (some site.url) 1 []
      [Ev.log ("🔍 Starting: " ++ site.name)] with
  | none => none
  | some (tr, .error e) => some (tr, .error e)
  | some (tr, .ok rows) =>
      some (tr ++ [Ev.log ("→ Found " ++ toString rows.length ++ " items from " ++ site.name)],
            .ok rows)

/-- The dedup key of a constructed row, `row[0] + "|" + row[5]`. -/
def dedupKey (r : Row) : String :=
  r.title ++ "|" ++ r.link

/-- `getExistingEntries` key construction: skip the header row and build
`(r[0] || "") + "|" + (r[5] || "")` for each remaining spreadsheet row. -/
def existingKeys (sheetRows : List (List String)) : List String :=
  (sheetRows.drop 1).map (fun r => r.getD 0 "" ++ "|" ++ r.getD 5 "")

/-- The orchestrator's dedup loop over one batch of extracted rows: queue a
row and add its key when the key is unseen, else drop it.  Returns the
queued rows (in push order, appended to `acc`) and the grown key set. -/
def dedupFold : List Row → List String → List Row → List Row × List String
  | [], seen, acc => (acc, seen)
  | r :: rs, seen, acc =>
    if dedupKey r ∈ seen then dedupFold rs seen acc
    else dedupFold rs (dedupKey r :: seen) (acc ++ [r])

/-- `appendToSheet(rows)`: unconditionally issue the spreadsheet append
call, then log the added count. -/
def appendToSheet (rows : List Row) : List Ev :=
  [Ev.sheetAppend rows,
   Ev.log ("✅ Added " ++ toString rows.length ++ " new auctions")]

/-- The orchestrator's per-site loop: scrape each site in turn, dedup its
rows into the running queue and key set.  `none` is fuel exhaustion;
`.error ()` is an uncaught TypeError escaping `scrapeSite`. -/
def sitesGo (fetch : String → Except String PageData)
    (resolve : String → String → String) (fuel : Nat) :
    List Site → List String → List Row → List Ev →
    Option (List Ev × Except Unit (List Row × List String))
  | [], seen, newRows, tr => some (tr, .ok (newRows, seen))
  | site :: rest, seen, newRows, tr =>
    match scrapeSite site fetch resolve fuel with
    | none => none
    | some (str, .error e) => some (tr ++ str, .error e)
    | some (str, .ok items) =>
      match dedupFold items seen newRows with
      | (newRows', seen') => sitesGo fetch resolve fuel rest seen' newRows' (tr ++ str)

/-- The process environment: `SHEET_ID` and `GOOGLE_SERVICE_ACCOUNT_JSON`,
each possibly absent. -/
structure Env where
  sheetId : Option String
  serviceJson : Option String
  deriving Repr, DecidableEq

/-- Truthiness of an environment variable: absent or empty is falsy. -/
def envFalsy : Option String → Bool
  | none => true
  | some s => s == ""

/-- The startup guard `!SHEET_ID || !SERVICE_ACCOUNT_JSON`. -/
def envMissing (e : Env) : Bool :=
  envFalsy e.sheetId || envFalsy e.serviceJson

/-- How a run ends: `exit1` from the startup guard, `crashed` on an
unhandled rejection, `normal` completion. -/
inductive Outcome where
  | exit1
  | crashed
  | normal
  deriving Repr, DecidableEq

/-- The startup sequence of the program, lines 6–12: the only check
performed before scraping is the environment guard; site descriptors are
not validated. -/
def startup (env : Env) (sites : List Site) : Except Nat (List Site) :=
  if envMissing env then .error 1 else .ok sites

/-- The startup error line. -/
def missingCredsMsg : String :=
  "❌ Missing Google credentials or Sheet ID in environment variables."

/-- The whole program: the env guard, the spreadsheet read, the per-site
loop, and the final append-or-skip branch.  Returns the event trace and
the outcome (`none` on fuel exhaustion). -/
def runMain (env : Env) (sheetRows : List (List String))
    (fetch : String → Except String PageData)
    (resolve : String → String → String) (sites : List Site) (fuel : Nat) :
    Option (List Ev × Outcome) :=
  if envMissing env then some ([Ev.logError missingCredsMsg], .exit1)
  else
    match sitesGo fetch resolve fuel sites (existingKeys sheetRows) [] [Ev.sheetGet] with
    | none => none
    | some (tr, .error _) => some (tr, .crashed)
    | some (tr, .ok (newRows, _)) =>
      if newRows.length > 0 then some (tr ++ appendToSheet newRows, .normal)
      else some (tr ++ [Ev.log "✅ No new auctions found."], .normal)

/-- Is an event a network call? -/
def isNetEv : Ev → Bool
  | .sheetGet => true
  | .pageFetch _ => true
  | .sheetAppend _ => true
  | .log _ => false
  | .logError _ => false

/-- Is an event a page fetch? -/
def isFetchEv : Ev → Bool
  | .pageFetch _ => true
  | _ => false

/-- Is an event a spreadsheet append call? -/
def isAppendEv : Ev → Bool
  | .sheetAppend _ => true
  | _ => false

/-- Number of network calls in a trace. -/
def netCount (tr : List Ev) : Nat := tr.countP (fun e => isNetEv e)

/-- Number of page fetches in a trace. -/
def fetchCount (tr : List Ev) : Nat := tr.countP (fun e => isFetchEv e)

/-- Number of append calls in a trace. -/
def appendCount (tr : List Ev) : Nat := tr.countP (fun e => isAppendEv e)

/-- The `SITES` constant of the source. -/
def SITES : List Site :=
  [{ name := "Example Auctions"
     url := "https://example.com/auctions"
     selectors :=
       { item := some ".auction-item"
         title := some ".auction-title"
         date := some ".auction-date"
         location := some ".auction-location"
         category := some ".auction-category"
         description := some ".auction-description"
         link := some "a" }
     pagination := some { next := some ".next-page a", limit := some 5 } }]

/-! ### Helper lemmas -/

theorem jsTruthyOptStr_some (u : String) : jsTruthyOptStr (some u) = (u != "") := rfl

theorem limitOk_one (l : Option Nat) : limitOk l 1 = true := by
  cases l with
  | none => rfl
  | some n =>
    cases n with
    | zero => rfl
    | succ m => simp [limitOk, limitFalsy, Nat.succ_le_succ (Nat.zero_le m)]

theorem guardEval_none_pu (pag : Option Pagination) (page : Nat) :
    guardEval pag none page = .exit := by
  cases pag <;> rfl

theorem guardEval_empty (pag : Option Pagination) (page : Nat) :
    guardEval pag (some "") page = .exit := by
  cases pag <;> simp [guardEval]

theorem guardEval_crash (u : String) (page : Nat) (h : u ≠ "") :
    guardEval none (some u) page = .crash := by
  simp [guardEval, h]

theorem guardEval_go (p : Pagination) (u : String) (page : Nat) (h : u ≠ "")
    (hl : limitOk p.limit page = true) :
    guardEval (some p) (some u) page = .go u p := by
  simp [guardEval, h, hl]

theorem guardEval_exit_limit (p : Pagination) (u : String) (page : Nat)
    (hl : limitOk p.limit page = false) :
    guardEval (some p) (some u) page = .exit := by
  by_cases h : u = "" <;> simp [guardEval, h, hl]

/-- One-step exit: a falsy `pageUrl` or a passed limit ends the loop
normally, at any fuel. -/
theorem siteLoop_exit (site : Site) (fetch : String → Except String PageData)
    (resolve : String → String → String) (fuel : Nat) (pu : Option String) (page : Nat)
    (acc : List Row) (tr : List Ev) (h : guardEval site.pagination pu page = .exit) :
    siteLoop site fetch resolve fuel pu page acc tr = some (tr, .ok acc) := by
  cases fuel <;> (rw [siteLoop]; rw [h])

/-- One-step crash: with a truthy `pageUrl` and no pagination object the
guard's `site.pagination.limit` read throws, at any fuel. -/
theorem siteLoop_crash (site : Site) (fetch : String → Except String PageData)
    (resolve : String → String → String) (fuel : Nat) (pu : Option String) (page : Nat)
    (acc : List Row) (tr : List Ev) (h : guardEval site.pagination pu page = .crash) :
    siteLoop site fetch resolve fuel pu page acc tr = some (tr, .error ()) := by
  cases fuel <;> (rw [siteLoop]; rw [h])

/-- One-step fuel exhaustion (model artifact): the guard holds but no fuel
remains. -/
theorem siteLoop_fuel0 (site : Site) (fetch : String → Except String PageData)
    (resolve : String → String → String) (pu : Option String) (page : Nat)
    (acc : List Row) (tr : List Ev) (url : String) (pag : Pagination)
    (h : guardEval site.pagination pu page = .go url pag) :
    siteLoop site fetch resolve 0 pu page acc tr = none := by
  rw [siteLoop]; rw [h]

/-- One-step page failure: the fetch throws, the `catch` logs and breaks,
returning the rows accumulated so far. -/
theorem siteLoop_err (site : Site) (fetch : String → Except String PageData)
    (resolve : String → String → String) (fuel : Nat) (pu : Option String) (page : Nat)
    (acc : List Row) (tr : List Ev) (url : String) (pag : Pagination) (e : String)
    (h : guardEval site.pagination pu page = .go url pag)
    (hf : fetch url = .error e) :
    siteLoop site fetch resolve (fuel + 1) pu page acc tr =
      some (tr ++ [Ev.log ("📄 Scraping page " ++ toString page ++ ": " ++ url),
                   Ev.pageFetch url,
                   Ev.logError ("⚠️ Error on " ++ url ++ ": " ++ e)], .ok acc) := by
  rw [siteLoop]; rw [h]
  simp [scrapePage, hf]

/-- One-step success: the fetch succeeds, rows are appended and the loop
advances to the computed next page. -/
theorem siteLoop_step (site : Site) (fetch : String → Except String PageData)
    (resolve : String → String → String) (fuel : Nat) (pu : Option String) (page : Nat)
    (acc : List Row) (tr : List Ev) (url : String) (pag : Pagination) (pd : PageData)
    (h : guardEval site.pagination pu page = .go url pag)
    (hf : fetch url = .ok pd) :
    siteLoop site fetch resolve (fuel + 1) pu page acc tr =
      siteLoop site fetch resolve fuel (nextPageOf site resolve page pd.rawNext)
        (page + 1) (acc ++ pd.elems.map (mkRow site resolve))
        (tr ++ [Ev.log ("📄 Scraping page " ++ toString page ++ ": " ++ url),
                Ev.pageFetch url]) := by
  conv_lhs => rw [siteLoop]
  rw [h]
  simp [scrapePage, hf]

theorem appendCount_append (l₁ l₂ : List Ev) :
    appendCount (l₁ ++ l₂) = appendCount l₁ + appendCount l₂ :=
  List.countP_append _ _ _

theorem fetchCount_append (l₁ l₂ : List Ev) :
    fetchCount (l₁ ++ l₂) = fetchCount l₁ + fetchCount l₂ :=
  List.countP_append _ _ _

/-- Structure of the rows queued by the dedup loop: the result extends the
accumulator by a list `added` of first-occurrence rows whose keys are
pairwise distinct and absent from `seen`, covering every unseen key. -/
theorem dedupFold_added (rs : List Row) :
    ∀ (seen : List String) (acc : List Row),
      ∃ added : List Row,
        (dedupFold rs seen acc).1 = acc ++ added ∧
        (added.map dedupKey).Nodup ∧
        (∀ a ∈ added, dedupKey a ∉ seen) ∧
        (∀ r ∈ rs, dedupKey r ∉ seen → ∃ a ∈ added, dedupKey a = dedupKey r) ∧
        (∀ a ∈ added, ∃ pre post, rs = pre ++ a :: post ∧
           ∀ p ∈ pre, dedupKey p ≠ dedupKey a) := by
  induction rs with
  | nil =>
    intro seen acc
    exact ⟨[], by simp [dedupFold], by simp, by simp, by simp, by simp⟩
  | cons r rs ih =>
    intro seen acc
    by_cases hmem : dedupKey r ∈ seen
    · obtain ⟨added, h1, h2, h3, h4, h5⟩ := ih seen acc
      refine ⟨added, ?_, h2, h3, ?_, ?_⟩
      · rw [dedupFold, if_pos hmem]; exact h1
      · intro r' hr' hnot
        rcases List.mem_cons.mp hr' with heq | hr'
        · exact absurd (heq ▸ hmem) hnot
        · exact h4 r' hr' hnot
      · intro a ha
        obtain ⟨pre, post, hsplit, hpre⟩ := h5 a ha
        refine ⟨r :: pre, post, by rw [hsplit]; rfl, ?_⟩
        intro p hp
        rcases List.mem_cons.mp hp with heq | hp
        · subst heq
          intro hk
          exact (h3 a ha) (hk ▸ hmem)
        · exact hpre p hp
    · obtain ⟨added', h1, h2, h3, h4, h5⟩ := ih (dedupKey r :: seen) (acc ++ [r])
      refine ⟨r :: added', ?_, ?_, ?_, ?_, ?_⟩
      · rw [dedupFold, if_neg hmem, h1]
        simp
      · simp only [List.map_cons, List.nodup_cons]
        refine ⟨?_, h2⟩
        intro hc
        obtain ⟨a, ha, hk⟩ := List.mem_map.mp hc
        exact (h3 a ha) (by simp [hk])
      · intro a ha
        rcases List.mem_cons.mp ha with heq | ha2
        · exact heq ▸ hmem
        · have h6 := h3 a ha2
          simp only [List.mem_cons, not_or] at h6
          exact h6.2
      · intro r' hr' hnot
        rcases List.mem_cons.mp hr' with heq | hr2
        · exact ⟨r, List.mem_cons_self _ _, by rw [heq]⟩
        · by_cases hk : dedupKey r' = dedupKey r
          · exact ⟨r, List.mem_cons_self _ _, hk.symm⟩
          · have hnot' : dedupKey r' ∉ dedupKey r :: seen := by
              simp only [List.mem_cons, not_or]
              exact ⟨hk, hnot⟩
            obtain ⟨a, ha, hkey⟩ := h4 r' hr2 hnot'
            exact ⟨a, List.mem_cons_of_mem _ ha, hkey⟩
      · intro a ha
        rcases List.mem_cons.mp ha with heq | ha2
        · exact ⟨[], rs, by simp [heq], by simp⟩
        · obtain ⟨pre, post, hsplit, hpre⟩ := h5 a ha2
          refine ⟨r :: pre, post, by rw [hsplit]; rfl, ?_⟩
          intro p hp
          rcases List.mem_cons.mp hp with heq | hp2
          · have h6 := h3 a ha2
            simp only [List.mem_cons, not_or] at h6
            rw [heq]
            exact fun hk => h6.1 hk.symm
          · exact hpre p hp2

/-- Membership in the grown key set: exactly the initial keys plus the keys
of the processed rows. -/
theorem dedupFold_seen (rs : List Row) :
    ∀ (seen : List String) (acc : List Row) (k : String),
      k ∈ (dedupFold rs seen acc).2 ↔ k ∈ seen ∨ ∃ r ∈ rs, dedupKey r = k := by
  induction rs with
  | nil => intro seen acc k; simp [dedupFold]
  | cons r rs ih =>
    intro seen acc k
    by_cases hmem : dedupKey r ∈ seen
    · rw [dedupFold, if_pos hmem, ih]
      constructor
      · rintro (hk | ⟨r', hr', hkey⟩)
        · exact Or.inl hk
        · exact Or.inr ⟨r', List.mem_cons_of_mem _ hr', hkey⟩
      · rintro (hk | ⟨r', hr', hkey⟩)
        · exact Or.inl hk
        · rcases List.mem_cons.mp hr' with heq | hr'
          · exact Or.inl (hkey ▸ heq ▸ hmem)
          · exact Or.inr ⟨r', hr', hkey⟩
    · rw [dedupFold, if_neg hmem, ih]
      constructor
      · rintro (hk | ⟨r', hr', hkey⟩)
        · rcases List.mem_cons.mp hk with heq | hk
          · exact Or.inr ⟨r, List.mem_cons_self _ _, heq.symm⟩
          · exact Or.inl hk
        · exact Or.inr ⟨r', List.mem_cons_of_mem _ hr', hkey⟩
      · rintro (hk | ⟨r', hr', hkey⟩)
        · exact Or.inl (List.mem_cons_of_mem _ hk)
        · rcases List.mem_cons.mp hr' with heq | hr'
          · exact Or.inl (List.mem_cons.mpr (Or.inl (hkey ▸ heq ▸ rfl)))
          · exact Or.inr ⟨r', hr', hkey⟩

/-! ### Claim theorems -/

/-- C1: among all records sharing a dedup key (title + "|" + link), only the
first occurrence across history plus the current run is queued: the queued
keys are pairwise distinct and disjoint from the history keys, every queued
row is the first of its key in the batch, every unseen key of the batch is
represented, the key set grows to history plus the accepted keys, and the
key ignores date/location/category/description. -/
theorem claim_C1 (seen0 : List String) (rs : List Row) :
    ((dedupFold rs seen0 []).1.map dedupKey).Nodup ∧
    (∀ a ∈ (dedupFold rs seen0 []).1, dedupKey a ∉ seen0) ∧
    (∀ r ∈ rs, dedupKey r ∉ seen0 → ∃ a ∈ (dedupFold rs seen0 []).1,
        dedupKey a = dedupKey r) ∧
    (∀ a ∈ (dedupFold rs seen0 []).1, ∃ pre post, rs = pre ++ a :: post ∧
        ∀ p ∈ pre, dedupKey p ≠ dedupKey a) ∧
    (∀ k, k ∈ (dedupFold rs seen0 []).2 ↔ k ∈ seen0 ∨ ∃ r ∈ rs, dedupKey r = k) ∧
    (∀ r r' : Row, r.title = r'.title → r.link = r'.link →
        dedupKey r = dedupKey r') := by
  obtain ⟨added, h1, h2, h3, h4, h5⟩ := dedupFold_added rs seen0 []
  simp only [List.nil_append] at h1
  rw [h1]
  refine ⟨h2, h3, h4, h5, dedupFold_seen rs seen0 [], ?_⟩
  intro r r' ht hl
  simp [dedupKey, ht, hl]

/-- History row sharing its key with `wRowB` below. -/
def wRowA : Row :=
  { title := "Estate Sale", date := "d1", location := "l1", category := "Property",
    description := "x1", link := "https://a/1" }

/-- Same dedup key as `wRowA` but different date/location/category/description. -/
def wRowB : Row :=
  { title := "Estate Sale", date := "d2", location := "l2", category := "Motors",
    description := "x2", link := "https://a/1" }

theorem claim_C1_witness :
    ∃ a ∈ (dedupFold [wRowA, wRowB] ["h|k"] []).1, dedupKey a = dedupKey wRowB :=
  (claim_C1 ["h|k"] [wRowA, wRowB]).2.2.1 wRowB (by decide) (by decide)

/-- Title containing the separator character. -/
def rowPipe1 : Row :=
  { title := "a|b", date := "", location := "", category := "",
    description := "", link := "c" }

/-- Different title and different link, but the same derived key. -/
def rowPipe2 : Row :=
  { title := "a", date := "d2", location := "l2", category := "c2",
    description := "x2", link := "b|c" }

/-- C10: the key derivation title + "|" + link is not injective on
(title, link): `rowPipe1` and `rowPipe2` differ in both title and link yet
share the key "a|b|c", so the genuinely new `rowPipe2` is dropped by the
dedup loop, both within a run and against history. -/
theorem claim_C10 :
    dedupKey rowPipe1 = dedupKey rowPipe2 ∧
    rowPipe1.title ≠ rowPipe2.title ∧
    rowPipe1.link ≠ rowPipe2.link ∧
    (dedupFold [rowPipe1, rowPipe2] [] []).1 = [rowPipe1] ∧
    (dedupFold [rowPipe2] [dedupKey rowPipe1] []).1 = [] := by
  refine ⟨rfl, by decide, by decide, by decide, by decide⟩

/-- The text `guessCategory` matches over: the lower-cased space-joined
concatenation of title, location and site url. -/
def catText (t l u : String) : String := jsToLower (t ++ " " ++ l ++ " " ++ u)

/-- Keyword group {property, estate}. -/
def grpProperty (s : String) : Bool := jsIncludes s "property" || jsIncludes s "estate"

/-- Keyword group {antique, collectible}. -/
def grpAntiques (s : String) : Bool := jsIncludes s "antique" || jsIncludes s "collectible"

/-- Keyword group {jewel, watch}. -/
def grpJewellery (s : String) : Bool := jsIncludes s "jewel" || jsIncludes s "watch"

/-- Keyword group {car, vehicle}. -/
def grpMotors (s : String) : Bool := jsIncludes s "car" || jsIncludes s "vehicle"

/-- Keyword group {farm, tractor}. -/
def grpAgriculture (s : String) : Bool := jsIncludes s "farm" || jsIncludes s "tractor"

/-- Keyword group {art, painting}. -/
def grpArt (s : String) : Bool := jsIncludes s "art" || jsIncludes s "painting"

/-- C2: with an empty category-selector text the record's category is
inferred by substring matching over the lower-cased concatenation of
title, location and base URL, testing the keyword groups in the fixed
order Property, Antiques, Jewellery, Motors, Agriculture, Art, else
General, first match winning; "Antique Car Auction" yields "Antiques". -/
theorem claim_C2 (t l u : String) :
    (grpProperty (catText t l u) = true → guessCategory t l u = "Property") ∧
    (grpProperty (catText t l u) = false → grpAntiques (catText t l u) = true →
      guessCategory t l u = "Antiques") ∧
    (grpProperty (catText t l u) = false → grpAntiques (catText t l u) = false →
      grpJewellery (catText t l u) = true → guessCategory t l u = "Jewellery") ∧
    (grpProperty (catText t l u) = false → grpAntiques (catText t l u) = false →
      grpJewellery (catText t l u) = false → grpMotors (catText t l u) = true →
      guessCategory t l u = "Motors") ∧
    (grpProperty (catText t l u) = false → grpAntiques (catText t l u) = false →
      grpJewellery (catText t l u) = false → grpMotors (catText t l u) = false →
      grpAgriculture (catText t l u) = true → guessCategory t l u = "Agriculture") ∧
    (grpProperty (catText t l u) = false → grpAntiques (catText t l u) = false →
      grpJewellery (catText t l u) = false → grpMotors (catText t l u) = false →
      grpAgriculture (catText t l u) = false → grpArt (catText t l u) = true →
      guessCategory t l u = "Art") ∧
    (grpProperty (catText t l u) = false → grpAntiques (catText t l u) = false →
      grpJewellery (catText t l u) = false → grpMotors (catText t l u) = false →
      grpAgriculture (catText t l u) = false → grpArt (catText t l u) = false →
      guessCategory t l u = "General") ∧
    (∀ (site : Site) (resolve : String → String → String) (e : ItemElem),
      e.title = t → e.location = l → site.url = u → e.category = "" →
      (mkRow site resolve e).category = guessCategory t l u) ∧
    guessCategory "Antique Car Auction" "" "" = "Antiques" := by
  have key : guessCategory t l u =
      (if grpProperty (catText t l u) then "Property"
       else if grpAntiques (catText t l u) then "Antiques"
       else if grpJewellery (catText t l u) then "Jewellery"
       else if grpMotors (catText t l u) then "Motors"
       else if grpAgriculture (catText t l u) then "Agriculture"
       else if grpArt (catText t l u) then "Art"
       else "General") := rfl
  refine ⟨?_, ?_, ?_, ?_, ?_, ?_, ?_, ?_, by decide⟩
  · intro h1; rw [key]; simp [h1]
  · intro h1 h2; rw [key]; simp [h1, h2]
  · intro h1 h2 h3; rw [key]; simp [h1, h2, h3]
  · intro h1 h2 h3 h4; rw [key]; simp [h1, h2, h3, h4]
  · intro h1 h2 h3 h4 h5; rw [key]; simp [h1, h2, h3, h4, h5]
  · intro h1 h2 h3 h4 h5 h6; rw [key]; simp [h1, h2, h3, h4, h5, h6]
  · intro h1 h2 h3 h4 h5 h6; rw [key]; simp [h1, h2, h3, h4, h5, h6]
  · intro site resolve e ht hl hu hcat
    simp [mkRow, hcat, ht, hl, hu]

theorem claim_C2_witness :
    guessCategory "Antique Car Auction" "" "https://ex.com" = "Antiques" :=
  (claim_C2 "Antique Car Auction" "" "https://ex.com").2.1 (by decide) (by decide)

/-- C5: if either required environment variable is absent at startup, the
process exits with code 1 after the error line, having made zero network
calls (the trace holds no fetch, sheet read, or append event). -/
theorem claim_C5 (env : Env) (sheetRows : List (List String))
    (fetch : String → Except String PageData) (resolve : String → String → String)
    (sites : List Site) (fuel : Nat)
    (h : env.sheetId = none ∨ env.serviceJson = none) :
    runMain env sheetRows fetch resolve sites fuel =
      some ([Ev.logError missingCredsMsg], Outcome.exit1) ∧
    netCount [Ev.logError missingCredsMsg] = 0 := by
  have hm : envMissing env = true := by
    rcases h with h | h <;> simp [envMissing, envFalsy, h]
  exact ⟨by simp [runMain, hm], rfl⟩

theorem claim_C5_witness :
    runMain { sheetId := none, serviceJson := some "creds" } []
        (fun _ => Except.error "net") (fun r _ => r) [] 0 =
      some ([Ev.logError missingCredsMsg], Outcome.exit1) ∧
    netCount [Ev.logError missingCredsMsg] = 0 :=
  claim_C5 { sheetId := none, serviceJson := some "creds" } []
    (fun _ => Except.error "net") (fun r _ => r) [] 0 (Or.inl rfl)

/-- C6: a truthy href extracted by the link sub-selector is resolved against
the site's base URL; an absent href falls back to exactly the site's base
URL, which is nonempty whenever the base URL is. -/
theorem claim_C6 (site : Site) (resolve : String → String → String) (e : ItemElem) :
    (∀ s : String, e.href = some s → s ≠ "" →
      (mkRow site resolve e).link = resolve s site.url) ∧
    (e.href = none → (mkRow site resolve e).link = site.url) ∧
    (e.href = none → site.url ≠ "" → (mkRow site resolve e).link ≠ "") := by
  refine ⟨?_, ?_, ?_⟩
  · intro s hs hne
    simp [mkRow, hs, hne]
  · intro h
    simp [mkRow, h]
  · intro h hne
    simpa [mkRow, h] using hne

/-- The selector set of the configured example site, reused by fixtures. -/
def selAll : Selectors :=
  { item := some ".auction-item"
    title := some ".auction-title"
    date := some ".auction-date"
    location := some ".auction-location"
    category := some ".auction-category"
    description := some ".auction-description"
    link := some "a" }

/-- Fixture site with full pagination. -/
def wSite : Site :=
  { name := "W", url := "https://w.example", selectors := selAll
    pagination := some { next := some ".next-page a", limit := some 3 } }

/-- Fixture URL resolution: prefix the base. -/
def wResolve : String → String → String := fun r b => b ++ r

/-- Item element with a relative href. -/
def wElemRel : ItemElem :=
  { title := "T", date := "D", location := "L", category := "C",
    description := "X", href := some "/lot/1" }

/-- Item element whose link selector matched no href. -/
def wElemNoHref : ItemElem :=
  { title := "T", date := "D", location := "L", category := "C",
    description := "X", href := none }

theorem claim_C6_witness :
    (mkRow wSite wResolve wElemRel).link = wResolve "/lot/1" wSite.url ∧
    (mkRow wSite wResolve wElemNoHref).link = wSite.url ∧
    (mkRow wSite wResolve wElemNoHref).link ≠ "" :=
  ⟨(claim_C6 wSite wResolve wElemRel).1 "/lot/1" rfl (by decide),
   (claim_C6 wSite wResolve wElemNoHref).2.1 rfl,
   (claim_C6 wSite wResolve wElemNoHref).2.2 rfl (by decide)⟩

theorem appendCount_fetchEvs (m u : String) :
    appendCount [Ev.log m, Ev.pageFetch u] = 0 := rfl

theorem appendCount_fetchErrEvs (m u e : String) :
    appendCount [Ev.log m, Ev.pageFetch u, Ev.logError e] = 0 := rfl

theorem fetchCount_fetchEvs (m u : String) :
    fetchCount [Ev.log m, Ev.pageFetch u] = 1 := rfl

theorem fetchCount_fetchErrEvs (m u e : String) :
    fetchCount [Ev.log m, Ev.pageFetch u, Ev.logError e] = 1 := rfl

/-- The guard never crashes when the pagination object is present. -/
theorem guardEval_some_ne_crash (p : Pagination) (pu : Option String) (page : Nat) :
    guardEval (some p) pu page ≠ .crash := by
  cases pu with
  | none => simp [guardEval]
  | some u =>
    by_cases hu : u = "" <;> by_cases hl : limitOk p.limit page <;>
      simp [guardEval, hu, hl]

/-- Inversion of a `go` guard outcome with a present pagination object. -/
theorem guardEval_go_inv (p p' : Pagination) (pu : Option String) (page : Nat)
    (url : String) (h : guardEval (some p) pu page = .go url p') :
    pu = some url ∧ url ≠ "" ∧ limitOk p.limit page = true ∧ p' = p := by
  cases pu with
  | none => simp [guardEval] at h
  | some u =>
    by_cases hu : u = ""
    · simp [guardEval, hu] at h
    · by_cases hl : limitOk p.limit page
      · simp [guardEval, hu, hl] at h
        exact ⟨by rw [h.1], h.1 ▸ hu, hl, h.2.symm⟩
      · simp [guardEval, hu, hl] at h

/-- The pagination loop emits no spreadsheet-append event. -/
theorem siteLoop_appendCount (site : Site) (fetch : String → Except String PageData)
    (resolve : String → String → String) :
    ∀ (fuel : Nat) (pu : Option String) (page : Nat) (acc : List Row)
      (tr tr' : List Ev) (res : Except Unit (List Row)),
      siteLoop site fetch resolve fuel pu page acc tr = some (tr', res) →
      appendCount tr' = appendCount tr := by
  intro fuel
  induction fuel with
  | zero =>
    intro pu page acc tr tr' res h
    cases hg : guardEval site.pagination pu page with
    | exit =>
      rw [siteLoop_exit site fetch resolve 0 pu page acc tr hg] at h
      simp only [Option.some.injEq, Prod.mk.injEq] at h
      rw [← h.1]
    | crash =>
      rw [siteLoop_crash site fetch resolve 0 pu page acc tr hg] at h
      simp only [Option.some.injEq, Prod.mk.injEq] at h
      rw [← h.1]
    | go url pag =>
      rw [siteLoop_fuel0 site fetch resolve pu page acc tr url pag hg] at h
      cases h
  | succ fuel ih =>
    intro pu page acc tr tr' res h
    cases hg : guardEval site.pagination pu page with
    | exit =>
      rw [siteLoop_exit site fetch resolve (fuel + 1) pu page acc tr hg] at h
      simp only [Option.some.injEq, Prod.mk.injEq] at h
      rw [← h.1]
    | crash =>
      rw [siteLoop_crash site fetch resolve (fuel + 1) pu page acc tr hg] at h
      simp only [Option.some.injEq, Prod.mk.injEq] at h
      rw [← h.1]
    | go url pag =>
      cases hf : fetch url with
      | error e =>
        rw [siteLoop_err site fetch resolve fuel pu page acc tr url pag e hg hf] at h
        simp only [Option.some.injEq, Prod.mk.injEq] at h
        rw [← h.1, appendCount_append, appendCount_fetchErrEvs]
        exact Nat.add_zero _
      | ok pd =>
        rw [siteLoop_step site fetch resolve fuel pu page acc tr url pag pd hg hf] at h
        have := ih _ _ _ _ _ _ h
        rw [this, appendCount_append, appendCount_fetchEvs]
        exact Nat.add_zero _

/-- A completed site walk emits no spreadsheet-append event. -/
theorem scrapeSite_appendCount (site : Site) (fetch : String → Except String PageData)
    (resolve : String → String → String) (fuel : Nat) (tr' : List Ev)
    (res : Except Unit (List Row))
    (h : scrapeSite site fetch resolve fuel = some (tr', res)) :
    appendCount tr' = 0 := by
  unfold scrapeSite at h
  cases hl : siteLoop site fetch resolve fuel (some site.url) 1 []
      [Ev.log ("🔍 Starting: " ++ site.name)] with
  | none => rw [hl] at h; cases h
  | some pr =>
    obtain ⟨ltr, lres⟩ := pr
    have hbase : appendCount ltr = 0 := by
      have := siteLoop_appendCount site fetch resolve fuel (some site.url) 1 [] _ ltr lres hl
      rw [this]; rfl
    rw [hl] at h
    cases lres with
    | error u =>
      simp only [Option.some.injEq, Prod.mk.injEq] at h
      rw [← h.1]; exact hbase
    | ok rows =>
      simp only [Option.some.injEq, Prod.mk.injEq] at h
      rw [← h.1, appendCount_append, hbase]; rfl

/-- The orchestrator's site loop emits no spreadsheet-append event. -/
theorem sitesGo_appendCount (fetch : String → Except String PageData)
    (resolve : String → String → String) (fuel : Nat) :
    ∀ (sites : List Site) (seen : List String) (newRows : List Row)
      (tr tr' : List Ev) (res : Except Unit (List Row × List String)),
      sitesGo fetch resolve fuel sites seen newRows tr = some (tr', res) →
      appendCount tr' = appendCount tr := by
  intro sites
  induction sites with
  | nil =>
    intro seen newRows tr tr' res h
    rw [sitesGo] at h
    simp only [Option.some.injEq, Prod.mk.injEq] at h
    rw [← h.1]
  | cons site rest ih =>
    intro seen newRows tr tr' res h
    rw [sitesGo] at h
    cases hs : scrapeSite site fetch resolve fuel with
    | none => rw [hs] at h; cases h
    | some pr =>
      obtain ⟨str, sres⟩ := pr
      rw [hs] at h
      cases sres with
      | error u =>
        simp only [Option.some.injEq, Prod.mk.injEq] at h
        rw [← h.1, appendCount_append,
          scrapeSite_appendCount site fetch resolve fuel str _ hs]
        exact Nat.add_zero _
      | ok items =>
        have h2 : sitesGo fetch resolve fuel rest (dedupFold items seen newRows).2
            (dedupFold items seen newRows).1 (tr ++ str) = some (tr', res) := h
        have := ih _ _ _ _ _ h2
        rw [this, appendCount_append,
          scrapeSite_appendCount site fetch resolve fuel str _ hs]
        exact Nat.add_zero _

/-- C7 counterexample: the append helper is not a no-op on an empty input;
it unconditionally issues the spreadsheet append call and logs
"Added 0 new auctions" rather than a no-op message. -/
theorem claim_C7_counterexample :
    appendToSheet [] = [Ev.sheetAppend [], Ev.log "✅ Added 0 new auctions"] ∧
    appendCount (appendToSheet []) = 1 :=
  ⟨rfl, rfl⟩

/-- C7 (amended): the append helper itself always issues the append call,
but the orchestrator never invokes it on an empty queue: a run whose
new-rows queue is empty after all sites makes zero append calls and logs
the no-new-auctions summary. -/
theorem claim_C7 (env : Env) (sheetRows : List (List String))
    (fetch : String → Except String PageData) (resolve : String → String → String)
    (sites : List Site) (fuel : Nat) (tr0 : List Ev) (seen : List String)
    (henv : envMissing env = false)
    (hgo : sitesGo fetch resolve fuel sites (existingKeys sheetRows) [] [Ev.sheetGet] =
      some (tr0, .ok ([], seen))) :
    runMain env sheetRows fetch resolve sites fuel =
      some (tr0 ++ [Ev.log "✅ No new auctions found."], Outcome.normal) ∧
    appendCount (tr0 ++ [Ev.log "✅ No new auctions found."]) = 0 ∧
    Ev.log "✅ No new auctions found." ∈ tr0 ++ [Ev.log "✅ No new auctions found."] := by
  have h0 : appendCount tr0 = 0 := by
    have := sitesGo_appendCount fetch resolve fuel sites (existingKeys sheetRows) []
      [Ev.sheetGet] tr0 _ hgo
    rw [this]; rfl
  refine ⟨?_, ?_, ?_⟩
  · simp only [runMain, henv, Bool.false_eq_true, if_false, hgo]
    rfl
  · rw [appendCount_append, h0]; rfl
  · simp

theorem claim_C7_witness :
    runMain { sheetId := some "id", serviceJson := some "creds" } []
        (fun _ => Except.ok { elems := [], rawNext := none }) wResolve [] 0 =
      some ([Ev.sheetGet] ++ [Ev.log "✅ No new auctions found."], Outcome.normal) ∧
    appendCount ([Ev.sheetGet] ++ [Ev.log "✅ No new auctions found."]) = 0 ∧
    Ev.log "✅ No new auctions found." ∈
      [Ev.sheetGet] ++ [Ev.log "✅ No new auctions found."] :=
  claim_C7 { sheetId := some "id", serviceJson := some "creds" } []
    (fun _ => Except.ok { elems := [], rawNext := none }) wResolve [] 0
    [Ev.sheetGet] [] rfl rfl

/-- Environment with both variables present. -/
def envOk : Env := { sheetId := some "sheet-id", serviceJson := some "service-json" }

/-- Fetch returning one page with no items and no next link. -/
def fetchOnePage : String → Except String PageData :=
  fun _ => .ok { elems := [], rawNext := none }

/-- Selector set missing the required title selector. -/
def badSelectors : Selectors :=
  { item := some ".auction-item"
    title := none
    date := some ".auction-date"
    location := some ".auction-location"
    category := some ".auction-category"
    description := some ".auction-description"
    link := some "a" }

/-- Descriptor missing a required field selector. -/
def badSite : Site :=
  { name := "Bad", url := "https://bad.example", selectors := badSelectors
    pagination := some { next := none, limit := none } }

/-- C8 counterexample: a descriptor missing the required title selector is
not rejected — startup performs no descriptor validation, and the run
proceeds to fetch the site's page and completes normally instead of
failing fast with a configuration error. -/
theorem claim_C8_counterexample :
    badSite.selectors.title = none ∧
    startup envOk [badSite] = .ok [badSite] ∧
    runMain envOk [] fetchOnePage wResolve [badSite] 5 =
      some ([Ev.sheetGet, Ev.log "🔍 Starting: Bad",
             Ev.log "📄 Scraping page 1: https://bad.example",
             Ev.pageFetch "https://bad.example",
             Ev.log "→ Found 0 items from Bad",
             Ev.log "✅ No new auctions found."], Outcome.normal) ∧
    Ev.pageFetch "https://bad.example" ∈
      [Ev.sheetGet, Ev.log "🔍 Starting: Bad",
       Ev.log "📄 Scraping page 1: https://bad.example",
       Ev.pageFetch "https://bad.example",
       Ev.log "→ Found 0 items from Bad",
       Ev.log "✅ No new auctions found."] := by
  refine ⟨rfl, rfl, by decide, by decide⟩

/-- C8 (amended): the program performs no site-descriptor validation at
startup; once the environment guard passes, any descriptor list — required
selectors present or not — is accepted unchanged and scraped. -/
theorem claim_C8 (env : Env) (sites : List Site) (h : envMissing env = false) :
    startup env sites = .ok sites := by
  simp [startup, h]

theorem claim_C8_witness : startup envOk [badSite] = .ok [badSite] :=
  claim_C8 envOk [badSite] rfl

/-- Descriptor with no pagination object at all. -/
def noPagSite : Site :=
  { name := "NoPag", url := "https://nopag.example", selectors := selAll
    pagination := none }

/-- Descriptor with a pagination object whose optional fields are absent. -/
def fieldlessPagSite : Site :=
  { name := "FP", url := "https://fp.example", selectors := selAll
    pagination := some { next := none, limit := none } }

/-- C9: the claim is right and the code wrong on a descriptor with no
pagination object: line 107 reads `site.pagination.limit` without the
optional chaining used at line 92, so the walk throws a TypeError outside
the try/catch and the run crashes instead of treating the site as
single-page; with a pagination object present but its fields absent the
walk does proceed single-page as claimed. -/
theorem claim_C9 :
    scrapeSite noPagSite fetchOnePage wResolve 5 =
      some ([Ev.log "🔍 Starting: NoPag"], .error ()) ∧
    runMain envOk [] fetchOnePage wResolve [noPagSite] 5 =
      some ([Ev.sheetGet, Ev.log "🔍 Starting: NoPag"], Outcome.crashed) ∧
    runMain envOk [] fetchOnePage wResolve [fieldlessPagSite] 5 =
      some ([Ev.sheetGet, Ev.log "🔍 Starting: FP",
             Ev.log "📄 Scraping page 1: https://fp.example",
             Ev.pageFetch "https://fp.example",
             Ev.log "→ Found 0 items from FP",
             Ev.log "✅ No new auctions found."], Outcome.normal) := by
  refine ⟨rfl, by decide, by decide⟩

theorem limitOk_none (page : Nat) : limitOk none page = true := rfl

theorem limitOk_some (N page : Nat) (hN : N ≠ 0) :
    limitOk (some N) page = decide (page ≤ N) := by
  have hb : (N == 0) = false := by simp [hN]
  simp [limitOk, limitFalsy, hb]

/-- With a configured positive limit `N`, the loop completes within the
remaining page budget and performs at most `N + 1 - page` further fetches. -/
theorem siteLoop_limited (site : Site) (fetch : String → Except String PageData)
    (resolve : String → String → String) (pag : Pagination) (N : Nat)
    (hpag : site.pagination = some pag) (hlim : pag.limit = some N) (hN : 0 < N) :
    ∀ (fuel page : Nat) (pu : Option String) (acc : List Row) (tr : List Ev),
      N < page + fuel →
      ∃ tr' res, siteLoop site fetch resolve fuel pu page acc tr = some (tr', res) ∧
        fetchCount tr' ≤ fetchCount tr + (N + 1 - page) := by
  intro fuel
  induction fuel with
  | zero =>
    intro page pu acc tr hlt
    cases hg : guardEval site.pagination pu page with
    | exit =>
      exact ⟨tr, .ok acc, siteLoop_exit site fetch resolve 0 pu page acc tr hg,
        Nat.le_add_right _ _⟩
    | crash =>
      rw [hpag] at hg
      exact absurd hg (guardEval_some_ne_crash pag pu page)
    | go url pag' =>
      rw [hpag] at hg
      obtain ⟨hpu, hurl, hok, hpp⟩ := guardEval_go_inv pag pag' pu page url hg
      rw [hlim, limitOk_some N page hN.ne'] at hok
      have : page ≤ N := of_decide_eq_true hok
      omega
  | succ fuel ih =>
    intro page pu acc tr hlt
    cases hg : guardEval site.pagination pu page with
    | exit =>
      exact ⟨tr, .ok acc, siteLoop_exit site fetch resolve (fuel + 1) pu page acc tr hg,
        Nat.le_add_right _ _⟩
    | crash =>
      rw [hpag] at hg
      exact absurd hg (guardEval_some_ne_crash pag pu page)
    | go url pag' =>
      have hgi := hg
      rw [hpag] at hgi
      obtain ⟨hpu, hurl, hok, hpp⟩ := guardEval_go_inv pag pag' pu page url hgi
      rw [hlim, limitOk_some N page hN.ne'] at hok
      have hpageN : page ≤ N := of_decide_eq_true hok
      cases hf : fetch url with
      | error e =>
        refine ⟨_, .ok acc,
          siteLoop_err site fetch resolve fuel pu page acc tr url pag' e hg hf, ?_⟩
        rw [fetchCount_append, fetchCount_fetchErrEvs]
        omega
      | ok pd =>
        rw [siteLoop_step site fetch resolve fuel pu page acc tr url pag' pd hg hf]
        obtain ⟨tr', res, hres, hbound⟩ := ih (page + 1)
          (nextPageOf site resolve page pd.rawNext)
          (acc ++ pd.elems.map (mkRow site resolve))
          (tr ++ [Ev.log ("📄 Scraping page " ++ toString page ++ ": " ++ url),
                  Ev.pageFetch url]) (by omega)
        refine ⟨tr', res, hres, ?_⟩
        rw [fetchCount_append, fetchCount_fetchEvs] at hbound
        omega

/-- With the limit absent and a world that always succeeds with a truthy
next link, the unbounded loop never exits, whatever the fuel. -/
theorem siteLoop_unbounded (site : Site) (fetch : String → Except String PageData)
    (resolve : String → String → String) (pag : Pagination)
    (hpag : site.pagination = some pag) (hlim : pag.limit = none)
    (hnext : nextSelConfigured site = true)
    (hfetch : ∀ u, ∃ pd, fetch u = .ok pd ∧ ∃ n, pd.rawNext = some n ∧ n ≠ "")
    (hres : ∀ a b, resolve a b ≠ "") :
    ∀ (fuel page : Nat) (url : String) (acc : List Row) (tr : List Ev), url ≠ "" →
      siteLoop site fetch resolve fuel (some url) page acc tr = none := by
  intro fuel
  induction fuel with
  | zero =>
    intro page url acc tr hurl
    have hg : guardEval site.pagination (some url) page = .go url pag := by
      rw [hpag]
      exact guardEval_go pag url page hurl (by rw [hlim]; rfl)
    exact siteLoop_fuel0 site fetch resolve (some url) page acc tr url pag hg
  | succ fuel ih =>
    intro page url acc tr hurl
    have hg : guardEval site.pagination (some url) page = .go url pag := by
      rw [hpag]
      exact guardEval_go pag url page hurl (by rw [hlim]; rfl)
    obtain ⟨pd, hf, n, hraw, hn⟩ := hfetch url
    rw [siteLoop_step site fetch resolve fuel (some url) page acc tr url pag pd hg hf]
    have hnp : nextPageOf site resolve page pd.rawNext = some (resolve n site.url) := by
      rw [hraw]
      simp [nextPageOf, hnext, limitOf, hpag, hlim, limitFalsy, hn]
    rw [hnp]
    exact ih (page + 1) (resolve n site.url) _ _ (hres n site.url)

/-- C3: with a configured positive page-limit N the walk fetches at most N
pages and terminates within N loop iterations even when every page offers a
next link; with the limit absent, as long as every page succeeds with a
truthy next link the walk never exits — it terminates only when a page
yields no next-page URL or fails. -/
theorem claim_C3 (site : Site) (pag : Pagination)
    (fetch : String → Except String PageData) (resolve : String → String → String)
    (hpag : site.pagination = some pag) :
    (∀ N : Nat, pag.limit = some N → 0 < N →
      ∀ (fuel : Nat) (url : String) (tr : List Ev), N < 1 + fuel →
        ∃ tr' res, siteLoop site fetch resolve fuel (some url) 1 [] tr =
            some (tr', res) ∧
          fetchCount tr' ≤ fetchCount tr + N) ∧
    (pag.limit = none → nextSelConfigured site = true →
      (∀ u, ∃ pd, fetch u = .ok pd ∧ ∃ n, pd.rawNext = some n ∧ n ≠ "") →
      (∀ a b : String, resolve a b ≠ "") →
      ∀ (fuel page : Nat) (url : String) (acc : List Row) (tr : List Ev),
        url ≠ "" →
        siteLoop site fetch resolve fuel (some url) page acc tr = none) := by
  constructor
  · intro N hlim hN fuel url tr hfuel
    obtain ⟨tr', res, hres, hbound⟩ :=
      siteLoop_limited site fetch resolve pag N hpag hlim hN fuel 1 (some url) [] tr hfuel
    exact ⟨tr', res, hres, by omega⟩
  · intro hlim hnext hfetch hres fuel page url acc tr hurl
    exact siteLoop_unbounded site fetch resolve pag hpag hlim hnext hfetch hres
      fuel page url acc tr hurl

/-- Site with page-limit 2. -/
def limSite : Site :=
  { name := "Lim", url := "https://lim.example", selectors := selAll
    pagination := some { next := some ".next a", limit := some 2 } }

/-- Site with no page-limit configured (unbounded). -/
def unbSite : Site :=
  { name := "Unb", url := "https://unb.example", selectors := selAll
    pagination := some { next := some ".next a", limit := none } }

/-- Fetch whose every page succeeds and offers a next link. -/
def fetchAlwaysNext : String → Except String PageData :=
  fun _ => .ok { elems := [], rawNext := some "more" }

/-- Resolution returning a fixed nonempty absolute URL. -/
def resolveConst : String → String → String := fun _ _ => "https://next.example"

theorem claim_C3_witness :
    (∃ tr' res, siteLoop limSite fetchAlwaysNext resolveConst 2
        (some "https://lim.example") 1 [] [] = some (tr', res) ∧
      fetchCount tr' ≤ fetchCount ([] : List Ev) + 2) ∧
    siteLoop unbSite fetchAlwaysNext resolveConst 9
      (some "https://unb.example") 7 [] [] = none := by
  constructor
  · exact (claim_C3 limSite { next := some ".next a", limit := some 2 } fetchAlwaysNext
      resolveConst rfl).1 2 rfl (by decide) 2 "https://lim.example" [] (by decide)
  · exact (claim_C3 unbSite { next := some ".next a", limit := none } fetchAlwaysNext
      resolveConst rfl).2 rfl rfl
      (fun u => ⟨{ elems := [], rawNext := some "more" }, rfl, "more", rfl, by decide⟩)
      (fun a b => by unfold resolveConst; decide) 9 7 "https://unb.example" [] []
      (by decide)

/-- The trace of a site whose first page fetch throws `e`: start log, page-1
log, the single fetch, the error log, and the found-0 summary. -/
def failTrace (site : Site) (e : String) : List Ev :=
  [Ev.log ("🔍 Starting: " ++ site.name),
   Ev.log ("📄 Scraping page " ++ toString (1 : Nat) ++ ": " ++ site.url),
   Ev.pageFetch site.url,
   Ev.logError ("⚠️ Error on " ++ site.url ++ ": " ++ e),
   Ev.log ("→ Found " ++ toString (0 : Nat) ++ " items from " ++ site.name)]

/-- C4: when fetching a page fails, the walk logs the error, is not
retried, stops immediately and returns exactly the rows accumulated from
the earlier pages; a site whose first page fails still completes with
`.ok []`, and the orchestrator goes on to walk the remaining sites. -/
theorem claim_C4 (site : Site) (pag : Pagination)
    (fetch : String → Except String PageData) (resolve : String → String → String)
    (fuel page : Nat) (url : String) (acc : List Row) (tr tr2 : List Ev) (e : String)
    (rest : List Site) (seen : List String) (nr : List Row)
    (hpag : site.pagination = some pag) (hurl : url ≠ "")
    (hlim : limitOk pag.limit page = true) (hf : fetch url = .error e) :
    (siteLoop site fetch resolve (fuel + 1) (some url) page acc tr =
      some (tr ++ [Ev.log ("📄 Scraping page " ++ toString page ++ ": " ++ url),
                   Ev.pageFetch url,
                   Ev.logError ("⚠️ Error on " ++ url ++ ": " ++ e)], .ok acc)) ∧
    (fetch site.url = .error e → site.url ≠ "" →
      scrapeSite site fetch resolve (fuel + 1) = some (failTrace site e, .ok []) ∧
      Ev.logError ("⚠️ Error on " ++ site.url ++ ": " ++ e) ∈ failTrace site e ∧
      sitesGo fetch resolve (fuel + 1) (site :: rest) seen nr tr2 =
        sitesGo fetch resolve (fuel + 1) rest seen nr (tr2 ++ failTrace site e)) := by
  have hg : guardEval site.pagination (some url) page = .go url pag := by
    rw [hpag]; exact guardEval_go pag url page hurl hlim
  constructor
  · exact siteLoop_err site fetch resolve fuel (some url) page acc tr url pag e hg hf
  · intro hfu hune
    have hg1 : guardEval site.pagination (some site.url) 1 = .go site.url pag := by
      rw [hpag]; exact guardEval_go pag site.url 1 hune (limitOk_one _)
    have hloop := siteLoop_err site fetch resolve fuel (some site.url) 1 []
      [Ev.log ("🔍 Starting: " ++ site.name)] site.url pag e hg1 hfu
    have hss : scrapeSite site fetch resolve (fuel + 1) =
        some (failTrace site e, .ok []) := by
      unfold scrapeSite
      rw [hloop]
      rfl
    refine ⟨hss, by simp [failTrace], ?_⟩
    rw [sitesGo, hss]
    rfl

/-- Site whose pages all fail to fetch. -/
def failSite : Site :=
  { name := "Fail", url := "https://fail.example", selectors := selAll
    pagination := some { next := some ".n a", limit := some 3 } }

/-- Fetch that always throws. -/
def fetchBoom : String → Except String PageData := fun _ => .error "boom"

theorem claim_C4_witness :
    scrapeSite failSite fetchBoom wResolve 4 =
      some (failTrace failSite "boom", .ok []) ∧
    Ev.logError ("⚠️ Error on " ++ failSite.url ++ ": " ++ "boom") ∈
      failTrace failSite "boom" ∧
    sitesGo fetchBoom wResolve 4 (failSite :: [wSite]) [] [] [Ev.sheetGet] =
      sitesGo fetchBoom wResolve 4 [wSite] [] []
        ([Ev.sheetGet] ++ failTrace failSite "boom") :=
  (claim_C4 failSite { next := some ".n a", limit := some 3 } fetchBoom wResolve 3 1
    "https://fail.example" [] [] [Ev.sheetGet] "boom" [wSite] [] [] rfl (by decide)
    (by decide) rfl).2 rfl (by decide)

end AuctionScraper
